import Mathlib

/-!
Verification of the symbol representation core of the lld ELF linker
(`src/ELF/Symbols.h`): the five symbol variants, the in-place resolution
primitive `replaceSymbol`, the lazy fetch protocol, and the slot-index
bookkeeping.

The embedding is shallow: each C++ class is a Lean structure, each
constructor is a Lean function producing the post-construction state, and
`replaceSymbol` is a pure function from the old slot state and the new
variant's constructor arguments to the new slot state together with the
list of trace-hook invocations it performs.

C++ members that the `Symbol` base constructor leaves uninitialized
(`VersionId`, `Visibility`, `IsUsedInRegularObj`, `ExportDynamic`,
`CanInline`, `Traced`, `InVersionScript` have neither in-class
initializers nor entries in the constructor's init list) are modelled by
threading an `Indet` record holding the indeterminate memory content that
placement-new leaves in those fields: a constructor that does not write a
field yields the corresponding `Indet` component unchanged.
-/

namespace LLDELF

/-- ELF constant `STB_LOCAL` (llvm/BinaryFormat/ELF.h). -/
def STB_LOCAL : Nat := 0

/-- ELF constant `STB_GLOBAL`. -/
def STB_GLOBAL : Nat := 1

/-- ELF constant `STB_WEAK`. -/
def STB_WEAK : Nat := 2

/-- ELF constant `STV_DEFAULT`. -/
def STV_DEFAULT : Nat := 0

/-- ELF constant `STT_OBJECT`. -/
def STT_OBJECT : Nat := 1

/-- ELF constant `STT_FUNC`. -/
def STT_FUNC : Nat := 2

/-- ELF constant `STT_SECTION`. -/
def STT_SECTION : Nat := 3

/-- ELF constant `STT_FILE`. -/
def STT_FILE : Nat := 4

/-- ELF constant `STT_TLS`. -/
def STT_TLS : Nat := 6

/-- ELF constant `STT_GNU_IFUNC`. -/
def STT_GNU_IFUNC : Nat := 10

/-- Truncation to `uint8_t`. -/
def u8 (n : Nat) : Nat := n % 256

/-- Truncation to `uint16_t`. -/
def u16 (n : Nat) : Nat := n % 65536

/-- Truncation to a 2-bit bitfield (`unsigned Visibility : 2`). -/
def u2 (n : Nat) : Nat := n % 4

/-- Truncation to `uint32_t`. -/
def u32 (n : Nat) : Nat := n % 4294967296

/-- Truncation to `uint64_t`. -/
def u64 (n : Nat) : Nat := n % 18446744073709551616

/-- The value `uint32_t(-1)`: the all-ones "no slot assigned" sentinel used
by `GotIndex`, `GotPltIndex`, `PltIndex` and `GlobalDynIndex`. -/
def NOT_PRESENT : Nat := 4294967295

/-- `Symbol::Kind` (Symbols.h lines 40-46). -/
inductive Kind where
  | DefinedKind
  | SharedKind
  | UndefinedKind
  | LazyArchiveKind
  | LazyObjectKind
deriving DecidableEq

/-- The fields of the `Symbol` base class (Symbols.h lines 38-183).
Pointer-valued members (`InputFile *File`) are modelled as `Option Nat`
where the `Nat` is an opaque file identity and `none` is the null pointer;
`StringRefZ Name` is a `String`; integer members are `Nat` truncated to
their C++ width at each write. -/
structure SymbolCore where
  SymbolKind : Kind
  Binding : Nat
  VersionId : Nat
  Visibility : Nat
  IsUsedInRegularObj : Bool
  ExportDynamic : Bool
  CanInline : Bool
  Traced : Bool
  InVersionScript : Bool
  File : Option Nat
  NeedsPltAddr : Bool
  IsInGlobalMipsGot : Bool
  Is32BitMipsGot : Bool
  IsInIplt : Bool
  IsInIgot : Bool
  IsPreemptible : Bool
  Used : Bool
  «Type» : Nat
  StOther : Nat
  Name : String
  DynsymIndex : Nat
  GotIndex : Nat
  GotPltIndex : Nat
  PltIndex : Nat
  GlobalDynIndex : Nat
deriving DecidableEq

/-- The indeterminate memory content that placement-new leaves in the seven
`Symbol` members the base constructor does not initialize. -/
structure Indet where
  VersionId : Nat
  Visibility : Nat
  IsUsedInRegularObj : Bool
  ExportDynamic : Bool
  CanInline : Bool
  Traced : Bool
  InVersionScript : Bool
deriving DecidableEq

/-- The `Symbol` base constructor (Symbols.h lines 133-138). Its init list
sets `Binding`, `File`, `SymbolKind`, the six MIPS/PLT flags, `Used`
(from `!Config->GcSections`, passed here as `gcSections`), `Type`,
`StOther` and `Name`; the in-class member initializers set `DynsymIndex`
to 0 and the four other slot indices to `uint32_t(-1)` (lines 126-130).
`VersionId`, `Visibility`, `IsUsedInRegularObj`, `ExportDynamic`,
`CanInline`, `Traced` and `InVersionScript` are not initialized and keep
the indeterminate content `mem`. -/
def Symbol.mkBase (mem : Indet) (gcSections : Bool) (K : Kind)
    (File : Option Nat) (Name : String) (Binding StOther «Type» : Nat) :
    SymbolCore :=
  { SymbolKind := K
    Binding := u8 Binding
    VersionId := mem.VersionId
    Visibility := mem.Visibility
    IsUsedInRegularObj := mem.IsUsedInRegularObj
    ExportDynamic := mem.ExportDynamic
    CanInline := mem.CanInline
    Traced := mem.Traced
    InVersionScript := mem.InVersionScript
    File := File
    NeedsPltAddr := false
    IsInGlobalMipsGot := false
    Is32BitMipsGot := false
    IsInIplt := false
    IsInIgot := false
    IsPreemptible := false
    Used := !gcSections
    «Type» := u8 «Type»
    StOther := u8 StOther
    Name := Name
    DynsymIndex := 0
    GotIndex := NOT_PRESENT
    GotPltIndex := NOT_PRESENT
    PltIndex := NOT_PRESENT
    GlobalDynIndex := NOT_PRESENT }

/-- `llvm::object::Archive::Symbol`, the archive member descriptor stored in
`LazyArchive` (name plus offset data identifying the member). -/
structure ArchiveSym where
  SymbolName : String
  SymbolIndex : Nat
deriving DecidableEq

/-- The variant-specific payload of each of the five `Symbol` subclasses. -/
inductive Payload where
  | defined (Value : Nat) (Size : Nat) (Section : Option Nat)
  | undefined
  | shared (CopyRelSec : Option Nat) (Value : Nat) (Size : Nat)
      (VerdefIndex : Nat) (Alignment : Nat)
  | lazyArchive (Sym : ArchiveSym)
  | lazyObject
deriving DecidableEq

/-- The full content of a storage slot: the shared `Symbol` base fields plus
the occupying variant's payload. -/
structure SymbolState where
  core : SymbolCore
  payload : Payload
deriving DecidableEq

/-- The `Defined` constructor (Symbols.h lines 188-191). -/
def Defined.construct (mem : Indet) (gc : Bool) (File : Option Nat)
    (Name : String) (Binding StOther «Type» Value Size : Nat)
    (Section : Option Nat) : SymbolState :=
  { core := Symbol.mkBase mem gc Kind.DefinedKind File Name Binding StOther «Type»
    payload := Payload.defined (u64 Value) (u64 Size) Section }

/-- The `Undefined` constructor (Symbols.h lines 202-204). -/
def Undefined.construct (mem : Indet) (gc : Bool) (File : Option Nat)
    (Name : String) (Binding StOther «Type» : Nat) : SymbolState :=
  { core := Symbol.mkBase mem gc Kind.UndefinedKind File Name Binding StOther «Type»
    payload := Payload.undefined }

/-- The `SharedSymbol` constructor (Symbols.h lines 213-236). After the base
constructor runs, the body normalizes GNU-IFUNC to FUNC:
`if (this->Type == llvm::ELF::STT_GNU_IFUNC) this->Type = llvm::ELF::STT_FUNC;`.
`File` is a reference (never null); `CopyRelSec` has the in-class
initializer `nullptr`. -/
def SharedSymbol.construct (mem : Indet) (gc : Bool) (File : Nat)
    (Name : String) (Binding StOther «Type» Value Size Alignment VerdefIndex : Nat) :
    SymbolState :=
  let base := Symbol.mkBase mem gc Kind.SharedKind (some File) Name Binding StOther «Type»
  let T2 := if base.«Type» = STT_GNU_IFUNC then STT_FUNC else base.«Type»
  { core := { base with «Type» := T2 }
    payload := Payload.shared none (u64 Value) (u64 Size) (u32 VerdefIndex)
      (u32 Alignment) }

/-- The protected `Lazy` constructor (Symbols.h lines 272-274): delegates to
the base constructor with binding `STB_GLOBAL` and st_other `STV_DEFAULT`,
whatever the slot's previous binding was. -/
def Lazy.mkBase (mem : Indet) (gc : Bool) (K : Kind) (File : Nat)
    (Name : String) («Type» : Nat) : SymbolCore :=
  Symbol.mkBase mem gc K (some File) Name STB_GLOBAL STV_DEFAULT «Type»

/-- The `LazyArchive` constructor (Symbols.h lines 283-285): the slot's name
is `S.getName()` of the archive member descriptor. -/
def LazyArchive.construct (mem : Indet) (gc : Bool) (File : Nat)
    (S : ArchiveSym) («Type» : Nat) : SymbolState :=
  { core := Lazy.mkBase mem gc Kind.LazyArchiveKind File S.SymbolName «Type»
    payload := Payload.lazyArchive S }

/-- The `LazyObject` constructor (Symbols.h lines 300-301). -/
def LazyObject.construct (mem : Indet) (gc : Bool) (File : Nat)
    (Name : String) («Type» : Nat) : SymbolState :=
  { core := Lazy.mkBase mem gc Kind.LazyObjectKind File Name «Type»
    payload := Payload.lazyObject }

/-- `Symbol::isWeak` (line 92). -/
def Symbol.isWeak (s : SymbolCore) : Bool := s.Binding == STB_WEAK

/-- `Symbol::isUndefined` (line 94). -/
def Symbol.isUndefined (s : SymbolCore) : Bool :=
  s.SymbolKind == Kind.UndefinedKind

/-- `Symbol::isDefined` (line 95). -/
def Symbol.isDefined (s : SymbolCore) : Bool :=
  s.SymbolKind == Kind.DefinedKind

/-- `Symbol::isShared` (line 96). -/
def Symbol.isShared (s : SymbolCore) : Bool :=
  s.SymbolKind == Kind.SharedKind

/-- `Symbol::isLocal` (line 97). -/
def Symbol.isLocal (s : SymbolCore) : Bool := s.Binding == STB_LOCAL

/-- `Symbol::isLazy` (lines 99-101). -/
def Symbol.isLazy (s : SymbolCore) : Bool :=
  s.SymbolKind == Kind.LazyArchiveKind || s.SymbolKind == Kind.LazyObjectKind

/-- `Symbol::isUndefWeak` (lines 105-108):
`return isWeak() && (isUndefined() || isLazy());`. -/
def Symbol.isUndefWeak (s : SymbolCore) : Bool :=
  Symbol.isWeak s && (Symbol.isUndefined s || Symbol.isLazy s)

/-- `Symbol::getName` (line 110). -/
def Symbol.getName (s : SymbolCore) : String := s.Name

/-- `Symbol::isInGot` (line 113): `return GotIndex != -1U;`. -/
def Symbol.isInGot (s : SymbolCore) : Bool := s.GotIndex != NOT_PRESENT

/-- `Symbol::isInPlt` (line 114): `return PltIndex != -1U;`. -/
def Symbol.isInPlt (s : SymbolCore) : Bool := s.PltIndex != NOT_PRESENT

/-- `Symbol::isSection` (line 174). -/
def Symbol.isSection (s : SymbolCore) : Bool := s.«Type» == STT_SECTION

/-- `Symbol::isTls` (line 175). -/
def Symbol.isTls (s : SymbolCore) : Bool := s.«Type» == STT_TLS

/-- `Symbol::isFunc` (line 176). -/
def Symbol.isFunc (s : SymbolCore) : Bool := s.«Type» == STT_FUNC

/-- `Symbol::isGnuIFunc` (line 177). -/
def Symbol.isGnuIFunc (s : SymbolCore) : Bool := s.«Type» == STT_GNU_IFUNC

/-- The constructor-argument package of `replaceSymbol`'s target variant:
one case per concrete `Symbol` subclass, carrying exactly the arguments
that variant's C++ constructor takes. -/
inductive CtorArgs where
  | defined (File : Option Nat) (Name : String)
      (Binding StOther «Type» Value Size : Nat) (Section : Option Nat)
  | undefined (File : Option Nat) (Name : String) (Binding StOther «Type» : Nat)
  | shared (File : Nat) (Name : String)
      (Binding StOther «Type» Value Size Alignment VerdefIndex : Nat)
  | lazyArchive (File : Nat) (Sym : ArchiveSym) («Type» : Nat)
  | lazyObject (File : Nat) (Name : String) («Type» : Nat)
deriving DecidableEq

/-- Dispatch `new (S) T(Arg...)` to the selected variant's constructor. -/
def construct (mem : Indet) (gc : Bool) : CtorArgs → SymbolState
  | CtorArgs.defined F N B SO T V Sz Sec => Defined.construct mem gc F N B SO T V Sz Sec
  | CtorArgs.undefined F N B SO T => Undefined.construct mem gc F N B SO T
  | CtorArgs.shared F N B SO T V Sz Al VI =>
      SharedSymbol.construct mem gc F N B SO T V Sz Al VI
  | CtorArgs.lazyArchive F S T => LazyArchive.construct mem gc F S T
  | CtorArgs.lazyObject F N T => LazyObject.construct mem gc F N T

/-- The binding value the selected constructor writes into the new variant:
the `Binding` argument for `Defined`/`Undefined`/`SharedSymbol`, and
always `STB_GLOBAL` for the two `Lazy` variants (Symbols.h line 273). -/
def CtorArgs.ctorBinding : CtorArgs → Nat
  | CtorArgs.defined _ _ B _ _ _ _ _ => u8 B
  | CtorArgs.undefined _ _ B _ _ => u8 B
  | CtorArgs.shared _ _ B _ _ _ _ _ _ => u8 B
  | CtorArgs.lazyArchive _ _ _ => STB_GLOBAL
  | CtorArgs.lazyObject _ _ _ => STB_GLOBAL

/-- The name the selected constructor writes into the new variant (for
`LazyArchive`, the archive member descriptor's name). -/
def CtorArgs.ctorName : CtorArgs → String
  | CtorArgs.defined _ N _ _ _ _ _ _ => N
  | CtorArgs.undefined _ N _ _ _ => N
  | CtorArgs.shared _ N _ _ _ _ _ _ _ => N
  | CtorArgs.lazyArchive _ S _ => S.SymbolName
  | CtorArgs.lazyObject _ N _ => N

/-- `replaceSymbol` (Symbols.h lines 351-375). Steps, matching the source:
copy the base (`Symbol Sym = *S;`); placement-new the target variant
(`new (S) T(...)`, with `mem` the memory content the constructor leaves in
the uninitialized fields); restore `VersionId`, `Visibility`,
`IsUsedInRegularObj`, `ExportDynamic`, `CanInline`, `Traced` and
`InVersionScript` from the copy; finally call `printTraceSymbol(S)` when
`S->Traced` is set. The second component is the list of arguments passed
to `printTraceSymbol`, in order. -/
def replaceSymbol (mem : Indet) (gc : Bool) (S : SymbolState)
    (args : CtorArgs) : SymbolState × List SymbolState :=
  let Sym := S.core
  let S1 := construct mem gc args
  let S2 : SymbolState :=
    { S1 with core :=
      { S1.core with
        VersionId := Sym.VersionId
        Visibility := Sym.Visibility
        IsUsedInRegularObj := Sym.IsUsedInRegularObj
        ExportDynamic := Sym.ExportDynamic
        CanInline := Sym.CanInline
        Traced := Sym.Traced
        InVersionScript := Sym.InVersionScript } }
  (S2, if S2.core.Traced then [S2] else [])

/-- Modelled from the spec: the bodies of `Lazy::fetch`,
`LazyArchive::fetch` and `LazyObject::fetch` are only declared in
`src/ELF/Symbols.h` (lines 269, 290, 306); their definitions live in
Symbols.cpp / InputFiles.cpp, which are not part of this repository
snapshot. Per spec section 4.3 the per-slot fetch state is a two-state
machine {not yet fetched, fetched}: `file` is the input file the lazy
symbol defers to and `seen` records whether a call has already handed it
off. -/
structure LazyFetch where
  file : Nat
  seen : Bool
deriving DecidableEq

/-- Modelled from the spec: `fetch()` is a one-shot hand-off (spec section
4.3 and the comment at Symbols.h lines 267-268, "Returns an object file
for this symbol, or a nullptr if the file was already returned"): the
first call returns the input file and marks the slot, every subsequent
call returns null and leaves the state unchanged. -/
def Lazy.fetch (s : LazyFetch) : Option Nat × LazyFetch :=
  if s.seen then (none, s) else (some s.file, { s with seen := true })

/-- The results of `n` successive `fetch()` calls on a slot, threading the
fetch state and recording each call's return value in order. -/
def fetchTrace : LazyFetch → Nat → List (Option Nat)
  | _, 0 => []
  | s, Nat.succ n => (Lazy.fetch s).1 :: fetchTrace (Lazy.fetch s).2 n

/-- A memory-content record with all bits clear, used for concrete slots. -/
def memZero : Indet :=
  { VersionId := 0
    Visibility := 0
    IsUsedInRegularObj := false
    ExportDynamic := false
    CanInline := false
    Traced := false
    InVersionScript := false }

/-- A concrete slot holding an `Undefined` named "foo" with weak binding. -/
def slotFooWeakUndef : SymbolState :=
  Undefined.construct memZero false none "foo" STB_WEAK 0 STT_FUNC

/-- Helper: once a lazy slot is marked fetched, every later `fetch()` call
returns null, so a run of `n` calls yields `n` nulls. -/
theorem fetchTrace_of_seen (s : LazyFetch) (h : s.seen = true) :
    ∀ n, fetchTrace s n = List.replicate n none := by
  intro n
  induction n with
  | zero => rfl
  | succ n ih => simp [fetchTrace, Lazy.fetch, h, ih, List.replicate_succ]

/-- C1: for every invocation of `replaceSymbol` on a storage slot —
whatever variant the slot held before and whatever target variant and
constructor arguments are supplied — the fields `VersionId`,
`Visibility`, `IsUsedInRegularObj`, `ExportDynamic`, `CanInline`,
`Traced` and `InVersionScript` of the slot after the call equal their
values immediately before the call, overriding the new variant's
constructor defaults. -/
theorem replaceSymbol_preserves_crosscutting (mem : Indet) (gc : Bool)
    (S : SymbolState) (args : CtorArgs) :
    ((replaceSymbol mem gc S args).1.core.VersionId = S.core.VersionId) ∧
    ((replaceSymbol mem gc S args).1.core.Visibility = S.core.Visibility) ∧
    ((replaceSymbol mem gc S args).1.core.IsUsedInRegularObj =
      S.core.IsUsedInRegularObj) ∧
    ((replaceSymbol mem gc S args).1.core.ExportDynamic = S.core.ExportDynamic) ∧
    ((replaceSymbol mem gc S args).1.core.CanInline = S.core.CanInline) ∧
    ((replaceSymbol mem gc S args).1.core.Traced = S.core.Traced) ∧
    ((replaceSymbol mem gc S args).1.core.InVersionScript =
      S.core.InVersionScript) :=
  ⟨rfl, rfl, rfl, rfl, rfl, rfl, rfl⟩

/-- C2 counterexample: a slot holding a weak `Undefined` (Binding =
`STB_WEAK`) that is replaced by a `LazyArchive` via `replaceSymbol` ends
up with Binding = `STB_GLOBAL` (the `Lazy` constructor hard-codes it),
so the Binding after the call differs from the Binding before it. -/
theorem replaceSymbol_binding_changes_cex :
    (replaceSymbol memZero false slotFooWeakUndef
        (CtorArgs.lazyArchive 5 { SymbolName := "foo", SymbolIndex := 0 }
          255)).1.core.Binding ≠
      slotFooWeakUndef.core.Binding := by decide

/-- C2 amended: `replaceSymbol` does not restore the previous `Binding`;
after the call the slot's Binding is whatever the new variant's
constructor wrote — the constructor's `Binding` argument for `Defined`,
`Undefined` and `SharedSymbol`, and always `STB_GLOBAL` for the two
`Lazy` variants — independent of the value held before the call.
Binding preservation across transitions is the caller's responsibility. -/
theorem replaceSymbol_binding_from_ctor (mem : Indet) (gc : Bool)
    (S : SymbolState) (args : CtorArgs) :
    (replaceSymbol mem gc S args).1.core.Binding = args.ctorBinding := by
  cases args <;> rfl

/-- C3: `isUndefWeak()` returns true exactly when `Binding = STB_WEAK` and
the symbol's kind is `Undefined`, `LazyArchive` or `LazyObject`; it is
false for every other combination, including a weak `Defined` or weak
`SharedSymbol`. -/
theorem isUndefWeak_characterization (s : SymbolCore) :
    Symbol.isUndefWeak s = true ↔
      s.Binding = STB_WEAK ∧
        (s.SymbolKind = Kind.UndefinedKind ∨
          s.SymbolKind = Kind.LazyArchiveKind ∨
          s.SymbolKind = Kind.LazyObjectKind) := by
  simp [Symbol.isUndefWeak, Symbol.isWeak, Symbol.isUndefined, Symbol.isLazy,
    Bool.and_eq_true, Bool.or_eq_true, beq_iff_eq, or_assoc]

/-- C4 counterexample: a freshly constructed `Undefined` has
`DynsymIndex = 0`, not the all-ones `NOT_PRESENT` sentinel the claim
asserts for all five slot-index fields. -/
theorem fresh_dynsymindex_not_sentinel_cex :
    (Undefined.construct memZero false none "x" STB_GLOBAL 0
        0).core.DynsymIndex ≠ NOT_PRESENT := by decide

/-- C4 amended: for every newly constructed symbol of any of the five
variants, `GotIndex`, `GotPltIndex`, `PltIndex` and `GlobalDynIndex`
hold the all-ones `NOT_PRESENT` sentinel, while `DynsymIndex` is
initialized to 0. -/
theorem fresh_slot_indices (mem : Indet) (gc : Bool) (args : CtorArgs) :
    ((construct mem gc args).core.DynsymIndex = 0) ∧
    ((construct mem gc args).core.GotIndex = NOT_PRESENT) ∧
    ((construct mem gc args).core.GotPltIndex = NOT_PRESENT) ∧
    ((construct mem gc args).core.PltIndex = NOT_PRESENT) ∧
    ((construct mem gc args).core.GlobalDynIndex = NOT_PRESENT) := by
  cases args <;> exact ⟨rfl, rfl, rfl, rfl, rfl⟩

/-- C5: a `SharedSymbol` constructed with incoming type GNU-IFUNC stores
type FUNC (so `isFunc()` is true and `isGnuIFunc()` is false — indeed
`isGnuIFunc()` is false for every freshly constructed `SharedSymbol`),
and every other incoming type is stored unchanged (`isFunc()` is true
exactly for incoming FUNC or GNU-IFUNC). -/
theorem sharedsymbol_ifunc_normalized (mem : Indet) (gc : Bool) (F : Nat)
    (N : String) (B SO T V Sz Al VI : Nat) :
    ((SharedSymbol.construct mem gc F N B SO T V Sz Al VI).core.«Type» =
      if u8 T = STT_GNU_IFUNC then STT_FUNC else u8 T) ∧
    (Symbol.isGnuIFunc
      (SharedSymbol.construct mem gc F N B SO T V Sz Al VI).core = false) ∧
    (Symbol.isFunc (SharedSymbol.construct mem gc F N B SO T V Sz Al VI).core =
        true ↔
      (u8 T = STT_FUNC ∨ u8 T = STT_GNU_IFUNC)) := by
  by_cases h : u8 T = STT_GNU_IFUNC <;>
    unfold STT_GNU_IFUNC at h <;>
    simp [SharedSymbol.construct, Symbol.mkBase, Symbol.isFunc,
      Symbol.isGnuIFunc, h, STT_FUNC, STT_GNU_IFUNC]

/-- C6: `isInGot()` is false exactly when `GotIndex` equals the all-ones
sentinel and `isInPlt()` is false exactly when `PltIndex` equals the
all-ones sentinel; both are true for every other index value,
including 0. -/
theorem isInGot_isInPlt_sentinel (s : SymbolCore) :
    (Symbol.isInGot s = false ↔ s.GotIndex = NOT_PRESENT) ∧
    (Symbol.isInPlt s = false ↔ s.PltIndex = NOT_PRESENT) := by
  constructor <;> simp [Symbol.isInGot, Symbol.isInPlt]

/-- C7: `replaceSymbol` invokes the trace hook `printTraceSymbol` exactly
once, with the post-transition symbol (new variant, preserved flags
restored) as argument, if and only if the slot's `Traced` flag was set
before the transition; otherwise the hook is not invoked. -/
theorem replaceSymbol_trace_iff_traced (mem : Indet) (gc : Bool)
    (S : SymbolState) (args : CtorArgs) :
    (replaceSymbol mem gc S args).2 =
      if S.core.Traced then [(replaceSymbol mem gc S args).1] else [] := rfl

/-- C8: on a lazy slot not yet fetched, a run of `n + 1` successive
`fetch()` calls without an intervening variant replacement returns the
slot's input file on the first call and null on every one of the `n`
subsequent calls. -/
theorem lazy_fetch_one_shot (s : LazyFetch) (h : s.seen = false) (n : Nat) :
    fetchTrace s (n + 1) = some s.file :: List.replicate n none := by
  have h2 : ({ s with seen := true } : LazyFetch).seen = true := rfl
  simp [fetchTrace, Lazy.fetch, h, fetchTrace_of_seen _ h2]

/-- C8 witness: a concrete fresh lazy slot deferring to file 7 yields
`[some 7, none, none]` over three successive fetch calls. -/
theorem lazy_fetch_one_shot_witness :
    (({ file := 7, seen := false } : LazyFetch).seen = false) ∧
      fetchTrace { file := 7, seen := false } (2 + 1) =
        some 7 :: List.replicate 2 none :=
  ⟨rfl, lazy_fetch_one_shot { file := 7, seen := false } rfl 2⟩

/-- C9 counterexample: `replaceSymbol` called with a constructor argument
list carrying a different name gives the slot that new name — a slot
named "foo" replaced by an `Undefined` constructed with name "bar" has
`getName() = "bar"` afterwards. -/
theorem replaceSymbol_name_changes_cex :
    Symbol.getName (replaceSymbol memZero false slotFooWeakUndef
        (CtorArgs.undefined none "bar" STB_GLOBAL 0 0)).1.core ≠
      Symbol.getName slotFooWeakUndef.core := by decide

/-- C9 amended: `replaceSymbol` does not restore the previous `Name`;
after the call `getName()` equals the name passed to the new variant's
constructor (for `LazyArchive`, the archive member descriptor's name).
The name is unchanged only when the caller passes the slot's current
name, as resolution — which looks slots up by name — always does. -/
theorem replaceSymbol_name_from_ctor (mem : Indet) (gc : Bool)
    (S : SymbolState) (args : CtorArgs) :
    Symbol.getName (replaceSymbol mem gc S args).1.core = args.ctorName := by
  cases args <;> rfl

/-- C10: the `Symbol` base constructor does not initialize `VersionId`,
`Visibility`, `IsUsedInRegularObj`, `ExportDynamic`, `CanInline`,
`Traced` or `InVersionScript`: whatever indeterminate content `mem` the
underlying memory holds in those seven fields is exactly what the freshly
constructed symbol exposes, for every choice of constructor arguments. -/
theorem symbol_ctor_uninitialized_fields (mem : Indet) (gc : Bool) (K : Kind)
    (F : Option Nat) (N : String) (B SO T : Nat) :
    ((Symbol.mkBase mem gc K F N B SO T).VersionId = mem.VersionId) ∧
    ((Symbol.mkBase mem gc K F N B SO T).Visibility = mem.Visibility) ∧
    ((Symbol.mkBase mem gc K F N B SO T).IsUsedInRegularObj =
      mem.IsUsedInRegularObj) ∧
    ((Symbol.mkBase mem gc K F N B SO T).ExportDynamic = mem.ExportDynamic) ∧
    ((Symbol.mkBase mem gc K F N B SO T).CanInline = mem.CanInline) ∧
    ((Symbol.mkBase mem gc K F N B SO T).Traced = mem.Traced) ∧
    ((Symbol.mkBase mem gc K F N B SO T).InVersionScript =
      mem.InVersionScript) :=
  ⟨rfl, rfl, rfl, rfl, rfl, rfl, rfl⟩

end LLDELF
